import Mathlib

/-!
Shallow embedding of `src/core/fillet.ts` (module `MakerJs.path`) of the
maker.js repository, together with theorems settling the frozen claims
about its specification.

Modelling conventions:
* Scalars (coordinates, radii, angles in degrees) are exact rationals `ℚ`.
* A TypeScript path object (`IPath` with `pathType` tag) is the inductive
  type `IPath` below; the three path types that occur in `fillet.ts`
  (`Line`, `Arc`, `Circle`) are its constructors.
* In-place mutation of a path endpoint (`path[propertyName] = value`) is
  modelled by explicit state passing: `setPathProp` returns the updated
  path value, and `fillet` returns the final states of both input paths
  next to its result.
* The collaborator functions of the surrounding geometry library
  (`point.*`, `angle.*`, `measure.*`, `paths.Parallel`, `breakAtPoint`,
  `slopeIntersectionPoint`, `intersection`) are not part of the source
  under verification; they are modelled from the spec, either abstractly
  as fields of the `Geo` structure (when their definition involves
  transcendental functions or is otherwise unspecified) or concretely
  (when the spec pins their meaning down).
* A JavaScript runtime `TypeError` (null dereference) is modelled by the
  `Except.error` branch of the result; the uniform `null` failure result
  of `fillet` is `Except.ok (none, _, _)`.
-/

namespace MakerJs

/-- A 2D point, mirroring `IPoint` (an `[x, y]` pair in the source). -/
structure IPoint where
  x : ℚ
  y : ℚ
deriving DecidableEq, Inhabited

/-- The path variants that occur in `fillet.ts`: `pathType.Line`,
`pathType.Arc`, `pathType.Circle`.  For an arc, `origin` is its center
(maker.js stores arc centers in the `origin` field) and the two angles are
in degrees. -/
inductive IPath where
  | line (origin endPoint : IPoint)
  | arc (origin : IPoint) (radius startAngle endAngle : ℚ)
  | circle (origin : IPoint) (radius : ℚ)
deriving DecidableEq, Inhabited

/-- The four endpoint property names that `getPointProperties` produces:
`'origin'`, `'end'`, `'startAngle'`, `'endAngle'`. -/
inductive PropName where
  | origin
  | endPoint
  | startAngle
  | endAngle
deriving DecidableEq, Inhabited

/-- A value that can be written to an endpoint property: a point (for a
line's `origin`/`end`) or an angle in degrees (for an arc's
`startAngle`/`endAngle`). -/
inductive PropVal where
  | pt (p : IPoint)
  | ang (a : ℚ)
deriving DecidableEq, Inhabited

/-- Reading `path[propertyName]`.  The mismatched combinations (for
example the `startAngle` of a line) never occur in the `fillet` flow; they
return a junk default. -/
def getPathProp (p : IPath) (n : PropName) : PropVal :=
  match p, n with
  | .line o _, .origin => .pt o
  | .line _ e, .endPoint => .pt e
  | .arc _ _ s _, .startAngle => .ang s
  | .arc _ _ _ e, .endAngle => .ang e
  | _, _ => .pt ⟨0, 0⟩

/-- Writing `path[propertyName] = value`.  Mismatched combinations leave
the path unchanged (they never occur in the `fillet` flow). -/
def setPathProp (p : IPath) (n : PropName) (v : PropVal) : IPath :=
  match p, n, v with
  | .line _ e, .origin, .pt q => .line q e
  | .line o _, .endPoint, .pt q => .line o q
  | .arc c r _ e, .startAngle, .ang a => .arc c r a e
  | .arc c r s _, .endAngle, .ang a => .arc c r s a
  | p, _, _ => p

/-- Mirrors the private interface `IPointProperty`. -/
structure IPointProperty where
  point : IPoint
  propertyName : PropName
deriving DecidableEq, Inhabited

/-- Mirrors the private interface `IMatchPointProperty`. -/
structure IMatchPointProperty where
  path : IPath
  isStart : Bool
  propertyName : PropName
  point : IPoint
  shardPoint : Option IPoint
deriving DecidableEq, Inhabited

/-- Mirrors the private interface `IFilletResult`.  The `clipPath`
closure (which writes one value to the matched endpoint property of the
context path) is modelled by the value it would write, `clipVal`. -/
structure IFilletResult where
  filletAngle : ℚ
  clipVal : PropVal
deriving DecidableEq, Inhabited

/-- Coordinatewise point addition; models `path.moveRelative` acting on a
point (the spec's translate-by-delta-vector operation). -/
def addPoint (a b : IPoint) : IPoint :=
  ⟨a.x + b.x, a.y + b.y⟩

/-- Squared euclidean distance between two points. -/
def distSq (a b : IPoint) : ℚ :=
  (a.x - b.x) ^ 2 + (a.y - b.y) ^ 2

/-- Modelled from the spec: `closest(reference, candidates) → Point`
(point op `point.closest`, not under `src/`).  Returns the first
candidate at minimal distance from the reference point; comparing squared
distances orders points exactly as comparing distances. -/
def closest (referencePoint : IPoint) (pointOptions : List IPoint) : IPoint :=
  pointOptions.foldl
    (fun best p => if distSq referencePoint p < distSq referencePoint best then p else best)
    pointOptions.headI

/-- The representative of `x` modulo 360 lying in `[0, 360)`. -/
def qmod360 (x : ℚ) : ℚ :=
  x - 360 * ⌊x / 360⌋

/-- Modelled from the spec: `arc-angular-span(arc) → scalar in [0°,360°)`
(`measure.arcAngle`, not under `src/`): the sweep from the start angle to
the end angle, normalized to `[0, 360)`.  The code path that swaps the
fillet arc's angles when the span exceeds 180° shows that the span is the
directed start-to-end sweep, not the minor sweep. -/
def arcAngle (p : IPath) : ℚ :=
  match p with
  | .arc _ _ s e => qmod360 (e - s)
  | _ => 0

/-- The collaborator contracts that `fillet.ts` consumes from the
surrounding geometry library (spec §6); none of them is under `src/`, so
each is modelled from the spec as an abstract function.

* `fromArcAngle center radius angleDeg`: point-from-arc-angle.
* `areEqualRounded`: rounded equality of two points.
* `isArcConcaveTowardsPoint`: is-arc-concave-toward measurement.
* `breakAtPoint p q`: splits a copy of `p` at `q`; the first component is
  the start piece (the mutated clone), the second is the returned end
  piece or `none` when the path cannot be broken there.
* `parallel line offset nearPoint`: `paths.Parallel` factory.
* `ofLineInDegrees origin endPoint`: `angle.ofLineInDegrees` on the line
  between the two points.
* `rotatePoint p angleDeg`: rotation of a point about `[0, 0]`, the only
  pivot `fillet.ts` uses with `path.rotate`.
* `slopeIntersectionPoint a b`: intersection of the infinite extensions
  of two lines, or `none`.
* `pathLength`: path-length measurement.
* `intersection a b`: path-pair intersection: the ordered list of
  intersection points, or `none` when the paths do not intersect.
* `ofPointInDegrees a b`: `angle.toDegrees (angle.ofPointInRadians a b)`.
-/
structure Geo where
  fromArcAngle : IPoint → ℚ → ℚ → IPoint
  areEqualRounded : IPoint → IPoint → Bool
  isArcConcaveTowardsPoint : IPath → IPoint → Bool
  breakAtPoint : IPath → IPoint → IPath × Option IPath
  parallel : IPath → ℚ → IPoint → IPath
  ofLineInDegrees : IPoint → IPoint → ℚ
  rotatePoint : IPoint → ℚ → IPoint
  slopeIntersectionPoint : IPath → IPath → Option IPoint
  pathLength : IPath → ℚ
  intersection : IPath → IPath → Option (List IPoint)
  ofPointInDegrees : IPoint → IPoint → ℚ

/-- Source `getPointProperties`: the two named endpoints of a path with
their property names (`point.fromArc` resolves an arc's endpoints via
point-from-arc-angle at its two angles).  Returns `none` (`null` in the
source) for any other path type. -/
def getPointProperties (g : Geo) (pathToInspect : IPath) :
    Option (IPointProperty × IPointProperty) :=
  match pathToInspect with
  | .arc origin radius s e =>
      some (⟨g.fromArcAngle origin radius s, .startAngle⟩,
            ⟨g.fromArcAngle origin radius e, .endAngle⟩)
  | .line origin e =>
      some (⟨origin, .origin⟩, ⟨e, .endPoint⟩)
  | .circle _ _ => none

/-- Index a pair of point properties: `false` is index 0, `true` is
index 1. -/
def propAt (pp : IPointProperty × IPointProperty) (i : Bool) : IPointProperty :=
  if i then pp.2 else pp.1

/-- Source `makeMatch` (local to `getMatchingPointProperties`). -/
def makeMatch (pathContext : IPath) (pointProperties : IPointProperty × IPointProperty)
    (index : Bool) : IMatchPointProperty :=
  { path := pathContext
    isStart := !index
    propertyName := (propAt pointProperties index).propertyName
    point := (propAt pointProperties index).point
    shardPoint := none }

/-- Source `getMatchingPointProperties`: tests the four endpoint pairings
in order `check(0,0) || check(0,1) || check(1,0) || check(1,1)`; the
first pairing with rounded-equal points wins.  When either path's point
properties are `null` (path type neither line nor arc), the source
dereferences `null` and throws a `TypeError`, modelled as
`Except.error ()`. -/
def getMatchingPointProperties (g : Geo) (path1 path2 : IPath) :
    Except Unit (Option (IMatchPointProperty × IMatchPointProperty)) :=
  match getPointProperties g path1, getPointProperties g path2 with
  | some path1Properties, some path2Properties =>
      let chk : Bool → Bool → Bool := fun i1 i2 =>
        g.areEqualRounded (propAt path1Properties i1).point (propAt path2Properties i2).point
      let mk : Bool → Bool → IMatchPointProperty × IMatchPointProperty := fun i1 i2 =>
        (makeMatch path1 path1Properties i1, makeMatch path2 path2Properties i2)
      .ok (if chk false false then some (mk false false)
           else if chk false true then some (mk false true)
           else if chk true false then some (mk true false)
           else if chk true true then some (mk true true)
           else none)
  | _, _ => .error ()

/-- Source `cloneAndBreakPath`: clone the path, break the clone at the
shard point; the pair is `[shardStart, shardEnd]` where `shardEnd` may be
absent.  Cloning is value copying in the functional model. -/
def cloneAndBreakPath (g : Geo) (pathToShard : IPath) (shardPoint : IPoint) :
    IPath × Option IPath :=
  g.breakAtPoint pathToShard shardPoint

/-- Source `getGuidePath`: the offset locus at distance `filletRadius`
from the context path, on the side facing `nearPoint`.  On an arc side
the kept shard half (`[0]` when `isStart`, `[1]` otherwise) is tested for
concavity toward `nearPoint` to decide whether the guide radius is
`radius - filletRadius` or `radius + filletRadius`.  The `context.shardPoint`
is always set by `fillet` before this is called; an absent shard point
yields no guide. -/
def getGuidePath (g : Geo) (context : IMatchPointProperty) (filletRadius : ℚ)
    (nearPoint : IPoint) : Option IPath :=
  match context.path with
  | .arc origin radius s e =>
      match context.shardPoint with
      | none => none
      | some sp =>
          let shards := cloneAndBreakPath g (.arc origin radius s e) sp
          let guideArcShard : Option IPath := if context.isStart then some shards.1 else shards.2
          match guideArcShard with
          | none => none
          | some sh =>
              let guideRadius :=
                if g.isArcConcaveTowardsPoint sh nearPoint then radius - filletRadius
                else radius + filletRadius
              some (.arc origin guideRadius s e)
  | .line _ _ => some (g.parallel context.path filletRadius nearPoint)
  | .circle _ _ => none

/-- The dispatch-map part of source `getFilletResult` (lines 149-191):
per path variant, the fillet tangency angle and the value the deferred
`clipPath` closure would write to the matched endpoint property. -/
def tangentOutcome (g : Geo) (context : IMatchPointProperty) (filletCenter : IPoint) :
    Option IFilletResult :=
  match context.path with
  | .arc origin radius s e =>
      let guideLineAngle := g.ofLineInDegrees origin filletCenter
      let filletAngle :=
        if g.isArcConcaveTowardsPoint (.arc origin radius s e) filletCenter then guideLineAngle
        else guideLineAngle + 180
      some ⟨filletAngle, .ang guideLineAngle⟩
  | .line o e =>
      let lineAngle := g.ofLineInDegrees o e
      let guide : IPath :=
        .line (addPoint (g.rotatePoint ⟨0, 0⟩ lineAngle) filletCenter)
              (addPoint (g.rotatePoint ⟨0, 1⟩ lineAngle) filletCenter)
      match g.slopeIntersectionPoint (.line o e) guide with
      | some intersectionPoint =>
          some ⟨g.ofPointInDegrees filletCenter intersectionPoint, .pt intersectionPoint⟩
      | none => none
  | .circle _ _ => none

/-- Source `getFilletResult` (lines 144-209): compute the tangency
outcome, then validate it by temporarily clipping the path, rejecting the
outcome when the clipped path has length zero, and reverting the clip.
The second component is the state of `context.path` after the call (the
clip is always reverted). -/
def getFilletResult (g : Geo) (context : IMatchPointProperty) (filletRadius : ℚ)
    (filletCenter : IPoint) : Option IFilletResult × IPath :=
  match tangentOutcome g context filletCenter with
  | none => (none, context.path)
  | some r0 =>
      let originalValue := getPathProp context.path context.propertyName
      let clipped := setPathProp context.path context.propertyName r0.clipVal
      let result := if g.pathLength clipped = 0 then none else some r0
      (result, setPathProp clipped context.propertyName originalValue)
  -- `filletRadius` is a parameter of the source function but is unused in
  -- its body.

/-- Source `fillet` lines 270-282: assemble the fillet arc from the two
fillet angles, reject a span of exactly 180°, and swap the angles when the
span exceeds 180° so the committed arc is the minor arc. -/
def assembleArc (center : IPoint) (filletRadius a0 a1 : ℚ) : Option IPath :=
  let filletArc : IPath := .arc center filletRadius a0 a1
  let filletSpan := arcAngle filletArc
  if filletSpan = 180 then none
  else if 180 < filletSpan then some (.arc center filletRadius a1 a0)
  else some filletArc

/-- Source `fillet` lines 248-258: resolve the fillet center from the two
guide paths: no intersection fails; a single intersection point is the
center; multiple points resolve to the one closest to the matched common
point. -/
def resolveCenter (g : Geo) (commonPoint : IPoint) (gp0 gp1 : IPath) : Option IPoint :=
  match g.intersection gp0 gp1 with
  | none => none
  | some pts => some (if pts.length = 1 then pts.headI else closest commonPoint pts)

/-- Source `fillet` lines 260-288 (tangent resolution and commit), with
the matched contexts `d1, d2` (shard points set) aliasing `path1, path2`:
compute both sides' fillet results (each call temporarily clips and
reverts its path), assemble the fillet arc, and only on full success
apply both deferred clips.  Returns the result and the final states of
`d1.path` and `d2.path`. -/
def filletClip (g : Geo) (filletRadius : ℚ) (d1 d2 : IMatchPointProperty)
    (center : IPoint) : Option IPath × IPath × IPath :=
  match getFilletResult g d1 filletRadius center with
  | (none, p1After) => (none, p1After, d2.path)
  | (some r0, p1After) =>
      match getFilletResult g d2 filletRadius center with
      | (none, p2After) => (none, p1After, p2After)
      | (some r1, p2After) =>
          match assembleArc center filletRadius r0.filletAngle r1.filletAngle with
          | none => (none, p1After, p2After)
          | some filletArc =>
              (some filletArc,
               setPathProp p1After d1.propertyName r0.clipVal,
               setPathProp p2After d2.propertyName r1.clipVal)

/-- Source `fillet` lines 226-289, after a successful endpoint match
`(c1, c2)` (so `c1.path`, `c2.path` alias `path1`, `path2`): locate the
shard points via the probe circle centered at the matched common point,
build both guide paths, resolve the fillet center, and hand over to
`filletClip`.  Every failure exit returns the two paths unchanged.  An
absent guide path makes the center resolution fail (modelled from the
spec: the guide is absent and later stages fail). -/
def filletAfterMatch (g : Geo) (filletRadius : ℚ)
    (c1 c2 : IMatchPointProperty) : Option IPath × IPath × IPath :=
  let shardCircle : IPath := .circle c1.point filletRadius
  match g.intersection shardCircle c1.path with
  | none => (none, c1.path, c2.path)
  | some pts1 =>
      match g.intersection shardCircle c2.path with
      | none => (none, c1.path, c2.path)
      | some pts2 =>
          let d1 : IMatchPointProperty := { c1 with shardPoint := some pts1.headI }
          let d2 : IMatchPointProperty := { c2 with shardPoint := some pts2.headI }
          match getGuidePath g d1 filletRadius pts2.headI,
                getGuidePath g d2 filletRadius pts1.headI with
          | some gp0, some gp1 =>
              match resolveCenter g d1.point gp0 gp1 with
              | none => (none, c1.path, c2.path)
              | some center => filletClip g filletRadius d1 d2 center
          | _, _ => (none, c1.path, c2.path)

/-- Source `fillet` (lines 218-293): the exported operation.  The result
is `Except.error ()` when the source would throw a runtime `TypeError`
(endpoint matching on a path that is neither line nor arc), and otherwise
`Except.ok (result, finalPath1, finalPath2)` where `result` is the
returned fillet arc or `none`, and the other two components are the final
states of the caller's two path objects. -/
def fillet (g : Geo) (path1 path2 : IPath) (filletRadius : ℚ) :
    Except Unit (Option IPath × IPath × IPath) :=
  if 0 < filletRadius then
    match getMatchingPointProperties g path1 path2 with
    | .error e => .error e
    | .ok none => .ok (none, path1, path2)
    | .ok (some (c1, c2)) => .ok (filletAfterMatch g filletRadius c1 c2)
  else .ok (none, path1, path2)

/-! ### Spec-side definitions used by refinement statements -/

/-- The fixed priority order of endpoint pairings tested by the endpoint
matcher, written as pairs of indices (`false` is index 0, `true` is
index 1): (pt0,pt0), (pt0,pt1), (pt1,pt0), (pt1,pt1). -/
def matchIndexOrder : List (Bool × Bool) :=
  [(false, false), (false, true), (true, false), (true, true)]

/-- Written from the spec's words for the first-match policy: the first
pairing in `matchIndexOrder` whose two endpoint coordinates are
rounded-equal, to be compared with the source's `getMatchingPointProperties`. -/
def firstMatchSpec (g : Geo) (props1 props2 : IPointProperty × IPointProperty) :
    Option (Bool × Bool) :=
  matchIndexOrder.find? fun ij =>
    g.areEqualRounded (propAt props1 ij.1).point (propAt props2 ij.2).point

/-- Two paths of the same variant agreeing on all non-endpoint fields
(for an arc: center and radius; for a circle: center and radius; a line
has no non-endpoint fields). -/
def sameShape : IPath → IPath → Prop := fun p q =>
  match p, q with
  | .line _ _, .line _ _ => True
  | .arc c r _ _, .arc c2 r2 _ _ => c = c2 ∧ r = r2
  | .circle c r, .circle c2 r2 => c = c2 ∧ r = r2
  | _, _ => False

/-- The frame condition for a single endpoint write: `q` differs from `p`
at most in the endpoint property `n`; every other endpoint property and
every non-endpoint field is unchanged. -/
def onlyPropWritten (p q : IPath) (n : PropName) : Prop :=
  sameShape p q ∧ ∀ m : PropName, m ≠ n → getPathProp q m = getPathProp p m

/-! ### Concrete instances used by the witnesses

`geo1` is a simple executable instantiation of the collaborator contracts
on which `fillet` runs its full successful pipeline for the two test
lines below; it is not claimed to be euclidean geometry — the theorems
hold for every instantiation, and the witnesses only need one. -/

/-- Test line 1: from (0,0) to (10,0). -/
def tl1 : IPath := .line ⟨0, 0⟩ ⟨10, 0⟩

/-- Test line 2: from (10,0) to (10,10). -/
def tl2 : IPath := .line ⟨10, 0⟩ ⟨10, 10⟩

/-- A concrete collaborator instantiation under which
`fillet geo1 tl1 tl2 1` succeeds. -/
def geo1 : Geo where
  fromArcAngle := fun c r a => ⟨c.x + r, c.y + a⟩
  areEqualRounded := fun a b => a = b
  isArcConcaveTowardsPoint := fun _ _ => true
  breakAtPoint := fun p _ => (p, some p)
  parallel := fun p r _ =>
    match p with
    | .line o e => .line ⟨o.x, o.y + r⟩ ⟨e.x, e.y + r⟩
    | q => q
  ofLineInDegrees := fun _ _ => 0
  rotatePoint := fun p _ => p
  slopeIntersectionPoint := fun a b =>
    match a, b with
    | .line o _, .line o2 _ => some ⟨o2.x, o.y⟩
    | _, _ => none
  pathLength := fun _ => 1
  intersection := fun a b =>
    match a, b with
    | .circle _ _, .line o _ => if o = ⟨0, 0⟩ then some [⟨9, 0⟩] else some [⟨10, 1⟩]
    | .line _ _, .line _ _ => some [⟨9, 1⟩]
    | .arc _ _ _ _, .arc _ _ _ _ => some [⟨3, 0⟩, ⟨0, 4⟩]
    | _, _ => none
  ofPointInDegrees := fun _ _ => 0

/-- Like `geo1` but every path measures as zero length, so the degenerate
trim validation rejects every side and `fillet` takes the tentative
clip-and-revert failure exit. -/
def geoB : Geo :=
  { geo1 with pathLength := fun _ => 0 }

/-- Like `geo1` but the concavity test is always false (the fillet lies
outside the arc's curvature) and the guide-line angle is 10°. -/
def geo2 : Geo :=
  { geo1 with
    isArcConcaveTowardsPoint := fun _ _ => false
    ofLineInDegrees := fun _ _ => 10 }

/-- An arc-side matched endpoint context used by the arc-side witnesses. -/
def ctx4 : IMatchPointProperty :=
  { path := .arc ⟨0, 0⟩ 5 0 90
    isStart := true
    propertyName := .startAngle
    point := ⟨5, 0⟩
    shardPoint := some ⟨4, 1⟩ }

/-- The line-side matched endpoint context that `fillet geo1 tl1 tl2 1`
produces for `tl1` (matched at its `end` endpoint), with its shard point
set. -/
def dctx : IMatchPointProperty :=
  { path := tl1
    isStart := false
    propertyName := .endPoint
    point := ⟨10, 0⟩
    shardPoint := some ⟨9, 0⟩ }

/-! ### Helper lemmas -/

theorem setPathProp_getPathProp (p : IPath) (n : PropName) :
    setPathProp p n (getPathProp p n) = p := by
  cases p <;> cases n <;> rfl

theorem setPathProp_revert (p : IPath) (n : PropName) (v : PropVal) :
    setPathProp (setPathProp p n v) n (getPathProp p n) = p := by
  cases p <;> cases n <;> cases v <;> rfl

theorem getFilletResult_snd (g : Geo) (ctx : IMatchPointProperty) (fr : ℚ) (c : IPoint) :
    (getFilletResult g ctx fr c).2 = ctx.path := by
  unfold getFilletResult
  cases tangentOutcome g ctx c with
  | none => rfl
  | some r0 => simp [setPathProp_revert]

theorem getFilletResult_some_len (g : Geo) (ctx : IMatchPointProperty) (fr : ℚ)
    (c : IPoint) (r : IFilletResult) (p2 : IPath)
    (h : getFilletResult g ctx fr c = (some r, p2)) :
    g.pathLength (setPathProp ctx.path ctx.propertyName r.clipVal) ≠ 0 := by
  unfold getFilletResult at h
  cases htan : tangentOutcome g ctx c with
  | none => rw [htan] at h; simp at h
  | some r0 =>
      rw [htan] at h
      dsimp only at h
      rw [Prod.mk.injEq] at h
      obtain ⟨h1, _⟩ := h
      by_cases hlen : g.pathLength (setPathProp ctx.path ctx.propertyName r0.clipVal) = 0
      · rw [if_pos hlen] at h1
        exact absurd h1 (by simp)
      · rw [if_neg hlen] at h1
        injection h1 with hr
        subst hr
        exact hlen

theorem getFilletResult_zero_len (g : Geo) (ctx : IMatchPointProperty) (fr : ℚ)
    (c : IPoint) (r0 : IFilletResult)
    (htan : tangentOutcome g ctx c = some r0)
    (hlen : g.pathLength (setPathProp ctx.path ctx.propertyName r0.clipVal) = 0) :
    (getFilletResult g ctx fr c).1 = none := by
  unfold getFilletResult
  rw [htan]
  simp [hlen]

theorem getMatching_paths (g : Geo) (p1 p2 : IPath) (m1 m2 : IMatchPointProperty)
    (h : getMatchingPointProperties g p1 p2 = .ok (some (m1, m2))) :
    m1.path = p1 ∧ m2.path = p2 := by
  unfold getMatchingPointProperties at h
  cases h1 : getPointProperties g p1 with
  | none => rw [h1] at h; exact absurd h (by simp)
  | some pr1 =>
      cases h2 : getPointProperties g p2 with
      | none => rw [h1, h2] at h; exact absurd h (by simp)
      | some pr2 =>
          rw [h1, h2] at h
          simp only [Except.ok.injEq] at h
          split_ifs at h with h00 h01 h10 h11
          · injection Option.some.inj h with hm1 hm2
            subst hm1; subst hm2
            exact ⟨rfl, rfl⟩
          · injection Option.some.inj h with hm1 hm2
            subst hm1; subst hm2
            exact ⟨rfl, rfl⟩
          · injection Option.some.inj h with hm1 hm2
            subst hm1; subst hm2
            exact ⟨rfl, rfl⟩
          · injection Option.some.inj h with hm1 hm2
            subst hm1; subst hm2
            exact ⟨rfl, rfl⟩

theorem qmod360_nonneg (x : ℚ) : 0 ≤ qmod360 x := by
  have h1 : (⌊x / 360⌋ : ℚ) ≤ x / 360 := Int.floor_le _
  have h3 : (360 : ℚ) * (x / 360) = x := by field_simp
  unfold qmod360
  nlinarith

theorem qmod360_lt (x : ℚ) : qmod360 x < 360 := by
  have h2 : x / 360 < ⌊x / 360⌋ + 1 := Int.lt_floor_add_one _
  have h3 : (360 : ℚ) * (x / 360) = x := by field_simp
  unfold qmod360
  nlinarith

theorem qmod360_neg (x : ℚ) (h : qmod360 x ≠ 0) : qmod360 (-x) = 360 - qmod360 x := by
  have h0 : 0 < qmod360 x := lt_of_le_of_ne (qmod360_nonneg x) (Ne.symm h)
  have h1 : qmod360 x < 360 := qmod360_lt x
  have hfl : ⌊(-x) / 360⌋ = -⌊x / 360⌋ - 1 := by
    rw [Int.floor_eq_iff]
    unfold qmod360 at h0 h1
    constructor
    · push_cast
      nlinarith
    · push_cast
      nlinarith
  unfold qmod360 at *
  rw [hfl]
  push_cast
  ring

theorem assembleArc_some (c : IPoint) (fr a0 a1 : ℚ) (a : IPath)
    (h : assembleArc c fr a0 a1 = some a) :
    (∃ s e, a = .arc c fr s e) ∧ arcAngle a < 180 := by
  unfold assembleArc at h
  dsimp only at h
  split_ifs at h with h180 hgt
  · injection h with hr
    subst hr
    simp only [arcAngle] at hgt ⊢
    have hne : qmod360 (a1 - a0) ≠ 0 := by
      intro h0
      rw [h0] at hgt
      norm_num at hgt
    refine ⟨⟨a1, a0, rfl⟩, ?_⟩
    have hx : a0 - a1 = -(a1 - a0) := by ring
    rw [hx, qmod360_neg _ hne]
    linarith
  · injection h with hr
    subst hr
    simp only [arcAngle] at h180 hgt ⊢
    exact ⟨⟨a0, a1, rfl⟩, lt_of_le_of_ne (le_of_not_lt hgt) h180⟩

theorem closest_foldl_aux (ref : IPoint) (l : List IPoint) (acc : IPoint) :
    (l.foldl (fun best p => if distSq ref p < distSq ref best then p else best) acc = acc ∨
     l.foldl (fun best p => if distSq ref p < distSq ref best then p else best) acc ∈ l) ∧
    distSq ref (l.foldl (fun best p => if distSq ref p < distSq ref best then p else best) acc)
        ≤ distSq ref acc ∧
    ∀ q ∈ l,
      distSq ref (l.foldl (fun best p => if distSq ref p < distSq ref best then p else best) acc)
        ≤ distSq ref q := by
  induction l generalizing acc with
  | nil => exact ⟨Or.inl rfl, le_refl _, by simp⟩
  | cons x xs ih =>
      simp only [List.foldl_cons]
      rcases ih (if distSq ref x < distSq ref acc then x else acc) with ⟨hmem, hle, hall⟩
      have hstep : distSq ref (if distSq ref x < distSq ref acc then x else acc)
          ≤ distSq ref acc := by
        split_ifs with hx
        · exact le_of_lt hx
        · exact le_refl _
      have hstepx : distSq ref (if distSq ref x < distSq ref acc then x else acc)
          ≤ distSq ref x := by
        split_ifs with hx
        · exact le_refl _
        · exact le_of_not_lt hx
      refine ⟨?_, le_trans hle hstep, ?_⟩
      · rcases hmem with h | h
        · rw [h]
          split_ifs with hx
          · exact Or.inr (List.mem_cons_self _ _)
          · exact Or.inl rfl
        · exact Or.inr (List.mem_cons_of_mem _ h)
      · intro q hq
        rcases List.mem_cons.mp hq with rfl | hq2
        · exact le_trans hle hstepx
        · exact hall q hq2

theorem closest_spec (ref : IPoint) (l : List IPoint) (hne : l ≠ []) :
    closest ref l ∈ l ∧ ∀ q ∈ l, distSq ref (closest ref l) ≤ distSq ref q := by
  unfold closest
  rcases closest_foldl_aux ref l l.headI with ⟨hmem, _, hall⟩
  refine ⟨?_, hall⟩
  rcases hmem with h | h
  · rw [h]
    cases l with
    | nil => exact absurd rfl hne
    | cons a as => simp [List.headI]
  · exact h


theorem filletClip_none (g : Geo) (fr : ℚ) (d1 d2 : IMatchPointProperty)
    (c : IPoint) (q1 q2 : IPath)
    (h : filletClip g fr d1 d2 c = (none, q1, q2)) :
    q1 = d1.path ∧ q2 = d2.path := by
  unfold filletClip at h
  rcases hg1 : getFilletResult g d1 fr c with ⟨o1, p1A⟩
  have hp1 : p1A = d1.path := by
    have hs := getFilletResult_snd g d1 fr c
    rw [hg1] at hs
    exact hs
  rw [hg1] at h
  cases o1 with
  | none =>
      simp only [Prod.mk.injEq] at h
      exact ⟨h.2.1.symm.trans hp1, h.2.2.symm⟩
  | some r0 =>
      rcases hg2 : getFilletResult g d2 fr c with ⟨o2, p2A⟩
      have hp2 : p2A = d2.path := by
        have hs := getFilletResult_snd g d2 fr c
        rw [hg2] at hs
        exact hs
      rw [hg2] at h
      cases o2 with
      | none =>
          simp only [Prod.mk.injEq] at h
          exact ⟨h.2.1.symm.trans hp1, h.2.2.symm.trans hp2⟩
      | some r1 =>
          dsimp only at h
          cases ha : assembleArc c fr r0.filletAngle r1.filletAngle with
          | none =>
              rw [ha] at h
              simp only [Prod.mk.injEq] at h
              exact ⟨h.2.1.symm.trans hp1, h.2.2.symm.trans hp2⟩
          | some arc =>
              rw [ha] at h
              simp at h

theorem filletClip_some (g : Geo) (fr : ℚ) (d1 d2 : IMatchPointProperty)
    (c : IPoint) (a : IPath) (q1 q2 : IPath)
    (h : filletClip g fr d1 d2 c = (some a, q1, q2)) :
    ∃ r0 r1 : IFilletResult,
      getFilletResult g d1 fr c = (some r0, d1.path) ∧
      getFilletResult g d2 fr c = (some r1, d2.path) ∧
      assembleArc c fr r0.filletAngle r1.filletAngle = some a ∧
      q1 = setPathProp d1.path d1.propertyName r0.clipVal ∧
      q2 = setPathProp d2.path d2.propertyName r1.clipVal := by
  unfold filletClip at h
  rcases hg1 : getFilletResult g d1 fr c with ⟨o1, p1A⟩
  have hp1 : p1A = d1.path := by
    have hs := getFilletResult_snd g d1 fr c
    rw [hg1] at hs
    exact hs
  rw [hg1] at h
  cases o1 with
  | none => simp at h
  | some r0 =>
      rcases hg2 : getFilletResult g d2 fr c with ⟨o2, p2A⟩
      have hp2 : p2A = d2.path := by
        have hs := getFilletResult_snd g d2 fr c
        rw [hg2] at hs
        exact hs
      rw [hg2] at h
      cases o2 with
      | none => simp at h
      | some r1 =>
          dsimp only at h
          cases ha : assembleArc c fr r0.filletAngle r1.filletAngle with
          | none =>
              rw [ha] at h
              simp at h
          | some arc =>
              rw [ha] at h
              simp only [Prod.mk.injEq, Option.some.injEq] at h
              obtain ⟨hfst, hq1, hq2⟩ := h
              refine ⟨r0, r1, by rw [hp1], by rw [hp2], ?_, ?_, ?_⟩
              · rw [ha, hfst]
              · rw [← hq1, hp1]
              · rw [← hq2, hp2]

theorem filletAfterMatch_none (g : Geo) (fr : ℚ) (c1 c2 : IMatchPointProperty)
    (q1 q2 : IPath)
    (h : filletAfterMatch g fr c1 c2 = (none, q1, q2)) :
    q1 = c1.path ∧ q2 = c2.path := by
  unfold filletAfterMatch at h
  dsimp only at h
  cases hi1 : g.intersection (.circle c1.point fr) c1.path with
  | none =>
      rw [hi1] at h
      simp only [Prod.mk.injEq] at h
      exact ⟨h.2.1.symm, h.2.2.symm⟩
  | some pts1 =>
      rw [hi1] at h
      cases hi2 : g.intersection (.circle c1.point fr) c2.path with
      | none =>
          rw [hi2] at h
          simp only [Prod.mk.injEq] at h
          exact ⟨h.2.1.symm, h.2.2.symm⟩
      | some pts2 =>
          rw [hi2] at h
          dsimp only at h
          rcases hgp0 : getGuidePath g { c1 with shardPoint := some pts1.headI } fr
              pts2.headI with _ | gp0 <;>
            rcases hgp1 : getGuidePath g { c2 with shardPoint := some pts2.headI } fr
                pts1.headI with _ | gp1 <;>
            rw [hgp0, hgp1] at h <;>
            dsimp only at h
          · simp only [Prod.mk.injEq] at h
            exact ⟨h.2.1.symm, h.2.2.symm⟩
          · simp only [Prod.mk.injEq] at h
            exact ⟨h.2.1.symm, h.2.2.symm⟩
          · simp only [Prod.mk.injEq] at h
            exact ⟨h.2.1.symm, h.2.2.symm⟩
          · cases hrc : resolveCenter g c1.point gp0 gp1 with
            | none =>
                rw [hrc] at h
                simp only [Prod.mk.injEq] at h
                exact ⟨h.2.1.symm, h.2.2.symm⟩
            | some center =>
                rw [hrc] at h
                exact filletClip_none g fr _ _ center q1 q2 h

theorem filletAfterMatch_some (g : Geo) (fr : ℚ) (c1 c2 : IMatchPointProperty)
    (a : IPath) (q1 q2 : IPath)
    (h : filletAfterMatch g fr c1 c2 = (some a, q1, q2)) :
    ∃ (center : IPoint) (r0 r1 : IFilletResult),
      q1 = setPathProp c1.path c1.propertyName r0.clipVal ∧
      q2 = setPathProp c2.path c2.propertyName r1.clipVal ∧
      assembleArc center fr r0.filletAngle r1.filletAngle = some a ∧
      g.pathLength q1 ≠ 0 ∧ g.pathLength q2 ≠ 0 := by
  unfold filletAfterMatch at h
  dsimp only at h
  cases hi1 : g.intersection (.circle c1.point fr) c1.path with
  | none => rw [hi1] at h; simp at h
  | some pts1 =>
      rw [hi1] at h
      cases hi2 : g.intersection (.circle c1.point fr) c2.path with
      | none => rw [hi2] at h; simp at h
      | some pts2 =>
          rw [hi2] at h
          dsimp only at h
          rcases hgp0 : getGuidePath g { c1 with shardPoint := some pts1.headI } fr
              pts2.headI with _ | gp0 <;>
            rcases hgp1 : getGuidePath g { c2 with shardPoint := some pts2.headI } fr
                pts1.headI with _ | gp1 <;>
            rw [hgp0, hgp1] at h <;>
            dsimp only at h
          · simp at h
          · simp at h
          · simp at h
          · cases hrc : resolveCenter g c1.point gp0 gp1 with
            | none => rw [hrc] at h; simp at h
            | some center =>
                rw [hrc] at h
                obtain ⟨r0, r1, hr0, hr1, ha, hq1, hq2⟩ :=
                  filletClip_some g fr _ _ center a q1 q2 h
                refine ⟨center, r0, r1, hq1, hq2, ha, ?_, ?_⟩
                · rw [hq1]
                  exact getFilletResult_some_len g _ fr center r0 _ hr0
                · rw [hq2]
                  exact getFilletResult_some_len g _ fr center r1 _ hr1

theorem fillet_none_unchanged (g : Geo) (p1 p2 : IPath) (r : ℚ) (q1 q2 : IPath)
    (h : fillet g p1 p2 r = .ok (none, q1, q2)) : q1 = p1 ∧ q2 = p2 := by
  unfold fillet at h
  split_ifs at h with hr
  · cases hm : getMatchingPointProperties g p1 p2 with
    | error e => rw [hm] at h; simp at h
    | ok o =>
        rw [hm] at h
        cases o with
        | none =>
            simp only [Except.ok.injEq, Prod.mk.injEq] at h
            exact ⟨h.2.1.symm, h.2.2.symm⟩
        | some pair =>
            obtain ⟨m1, m2⟩ := pair
            dsimp only at h
            have hfam : filletAfterMatch g r m1 m2 = (none, q1, q2) := Except.ok.inj h
            obtain ⟨h1, h2⟩ := filletAfterMatch_none g r m1 m2 q1 q2 hfam
            obtain ⟨hp1, hp2⟩ := getMatching_paths g p1 p2 m1 m2 hm
            exact ⟨h1.trans hp1, h2.trans hp2⟩
  · simp only [Except.ok.injEq, Prod.mk.injEq] at h
    exact ⟨h.2.1.symm, h.2.2.symm⟩

theorem fillet_success_spec (g : Geo) (p1 p2 : IPath) (r : ℚ) (a : IPath)
    (q1 q2 : IPath)
    (h : fillet g p1 p2 r = .ok (some a, q1, q2)) :
    ∃ m1 m2 : IMatchPointProperty,
      getMatchingPointProperties g p1 p2 = .ok (some (m1, m2)) ∧
      ∃ v1 v2 : PropVal,
        q1 = setPathProp p1 m1.propertyName v1 ∧
        q2 = setPathProp p2 m2.propertyName v2 ∧
        g.pathLength q1 ≠ 0 ∧ g.pathLength q2 ≠ 0 ∧
        (∃ c s e, a = IPath.arc c r s e) ∧ arcAngle a < 180 := by
  unfold fillet at h
  split_ifs at h with hr
  · cases hm : getMatchingPointProperties g p1 p2 with
    | error e => rw [hm] at h; simp at h
    | ok o =>
        rw [hm] at h
        cases o with
        | none => simp at h
        | some pair =>
            obtain ⟨m1, m2⟩ := pair
            dsimp only at h
            have hfam : filletAfterMatch g r m1 m2 = (some a, q1, q2) := Except.ok.inj h
            obtain ⟨center, r0, r1, hq1, hq2, ha, hl1, hl2⟩ :=
              filletAfterMatch_some g r m1 m2 a q1 q2 hfam
            obtain ⟨hp1, hp2⟩ := getMatching_paths g p1 p2 m1 m2 hm
            obtain ⟨⟨s, e, harc⟩, hspan⟩ := assembleArc_some center r _ _ a ha
            exact ⟨m1, m2, rfl, r0.clipVal, r1.clipVal,
              by rw [hq1, hp1], by rw [hq2, hp2], hl1, hl2, ⟨center, s, e, harc⟩, hspan⟩
  · simp at h

/-! ### Concrete evaluations shared by the witnesses -/

theorem geo1_fillet_eval :
    fillet geo1 tl1 tl2 1 =
      .ok (some (.arc ⟨9, 1⟩ 1 0 0), .line ⟨0, 0⟩ ⟨9, 0⟩, .line ⟨9, 0⟩ ⟨10, 10⟩) := by
  norm_num [fillet, getMatchingPointProperties, getPointProperties, propAt, makeMatch,
    filletAfterMatch, getGuidePath, cloneAndBreakPath, resolveCenter, closest, distSq,
    filletClip, getFilletResult, tangentOutcome, addPoint, setPathProp, getPathProp,
    assembleArc, arcAngle, qmod360, geo1, tl1, tl2]

theorem geoB_fillet_eval : fillet geoB tl1 tl2 1 = .ok (none, tl1, tl2) := by
  norm_num [fillet, getMatchingPointProperties, getPointProperties, propAt, makeMatch,
    filletAfterMatch, getGuidePath, cloneAndBreakPath, resolveCenter, closest, distSq,
    filletClip, getFilletResult, tangentOutcome, addPoint, setPathProp, getPathProp,
    assembleArc, arcAngle, qmod360, geoB, geo1, tl1, tl2]

theorem geo2_gfr_eval :
    getFilletResult geo2 ctx4 1 ⟨7, 0⟩ = (some ⟨190, .ang 10⟩, IPath.arc ⟨0, 0⟩ 5 0 90) := by
  norm_num [getFilletResult, tangentOutcome, setPathProp, getPathProp, geo2, geo1, ctx4]

theorem geo1_gfr_eval :
    getFilletResult geo1 dctx 1 ⟨9, 1⟩ = (some ⟨0, .pt ⟨9, 0⟩⟩, tl1) := by
  norm_num [getFilletResult, tangentOutcome, setPathProp, getPathProp, addPoint,
    geo1, dctx, tl1]

theorem geoB_tangent_eval :
    tangentOutcome geoB dctx ⟨9, 1⟩ = some ⟨0, .pt ⟨9, 0⟩⟩ := by
  norm_num [tangentOutcome, addPoint, geoB, geo1, dctx, tl1]

/-! ### Claim theorems -/

/-- C1: for every pair of input paths and radius for which `fillet`
returns failure (`null`), both `path1` and `path2` are left identical to
their pre-call state — including the case where a tentative clip was
applied and reverted during degenerate-trim validation. -/
theorem fillet_failure_atomic (g : Geo) (p1 p2 : IPath) (r : ℚ) (q1 q2 : IPath)
    (h : fillet g p1 p2 r = .ok (none, q1, q2)) : q1 = p1 ∧ q2 = p2 :=
  fillet_none_unchanged g p1 p2 r q1 q2 h

/-- Witness for C1: under `geoB` every path measures as zero length, so
the degenerate-trim validation rejects the first side after tentatively
clipping `tl1` and reverting; the failing call leaves both paths
unchanged. -/
theorem fillet_failure_atomic_witness :
    fillet geoB tl1 tl2 1 = .ok (none, tl1, tl2) ∧ tl1 = tl1 ∧ tl2 = tl2 :=
  ⟨geoB_fillet_eval, fillet_failure_atomic geoB tl1 tl2 1 tl1 tl2 geoB_fillet_eval⟩

/-- C2: whenever `fillet` succeeds the returned arc's angular span is
strictly less than 180°; a span of exactly 180° aborts the assembly with
`none`, and a span above 180° swaps `startAngle`/`endAngle` so the
committed arc is the minor arc. -/
theorem fillet_span_lt_180 :
    (∀ (g : Geo) (p1 p2 : IPath) (r : ℚ) (a q1 q2 : IPath),
        fillet g p1 p2 r = .ok (some a, q1, q2) → arcAngle a < 180) ∧
    (∀ (c : IPoint) (r a0 a1 : ℚ),
        arcAngle (IPath.arc c r a0 a1) = 180 → assembleArc c r a0 a1 = none) ∧
    (∀ (c : IPoint) (r a0 a1 : ℚ),
        180 < arcAngle (IPath.arc c r a0 a1) →
          assembleArc c r a0 a1 = some (IPath.arc c r a1 a0)) := by
  refine ⟨?_, ?_, ?_⟩
  · intro g p1 p2 r a q1 q2 h
    obtain ⟨m1, m2, hm, v1, v2, hq1, hq2, hl1, hl2, hex, hspan⟩ :=
      fillet_success_spec g p1 p2 r a q1 q2 h
    exact hspan
  · intro c r a0 a1 h
    unfold assembleArc
    dsimp only
    rw [if_pos h]
  · intro c r a0 a1 h
    unfold assembleArc
    dsimp only
    rw [if_neg h.ne', if_pos h]

/-- Witness for C2: the successful `geo1` run returns an arc of span 0;
angles (0, 180) give span exactly 180 and are rejected; angles (0, 190)
give span 190 and the assembled arc has the angles swapped. -/
theorem fillet_span_lt_180_witness :
    arcAngle (IPath.arc ⟨9, 1⟩ 1 0 0) < 180 ∧
    arcAngle (IPath.arc ⟨0, 0⟩ 1 0 180) = 180 ∧
    assembleArc ⟨0, 0⟩ 1 0 180 = none ∧
    180 < arcAngle (IPath.arc ⟨0, 0⟩ 1 0 190) ∧
    assembleArc ⟨0, 0⟩ 1 0 190 = some (IPath.arc ⟨0, 0⟩ 1 190 0) := by
  have h180 : arcAngle (IPath.arc (⟨0, 0⟩ : IPoint) 1 0 180) = 180 := by
    norm_num [arcAngle, qmod360]
  have h190 : (180 : ℚ) < arcAngle (IPath.arc (⟨0, 0⟩ : IPoint) 1 0 190) := by
    norm_num [arcAngle, qmod360]
  exact ⟨fillet_span_lt_180.1 geo1 tl1 tl2 1 _ _ _ geo1_fillet_eval, h180,
    fillet_span_lt_180.2.1 ⟨0, 0⟩ 1 0 180 h180, h190,
    fillet_span_lt_180.2.2 ⟨0, 0⟩ 1 0 190 h190⟩

/-- C3: for every successful call `fillet path1 path2 filletRadius`, the
returned arc's radius field is exactly the requested `filletRadius`
scalar. -/
theorem fillet_radius_fidelity (g : Geo) (p1 p2 : IPath) (r : ℚ) (a q1 q2 : IPath)
    (h : fillet g p1 p2 r = .ok (some a, q1, q2)) :
    ∃ c s e, a = IPath.arc c r s e := by
  obtain ⟨m1, m2, hm, v1, v2, hq1, hq2, hl1, hl2, hex, hspan⟩ :=
    fillet_success_spec g p1 p2 r a q1 q2 h
  exact hex

/-- Witness for C3: the successful `geo1` run with radius 1 returns an
arc with radius field 1. -/
theorem fillet_radius_fidelity_witness :
    fillet geo1 tl1 tl2 1 =
      .ok (some (.arc ⟨9, 1⟩ 1 0 0), .line ⟨0, 0⟩ ⟨9, 0⟩, .line ⟨9, 0⟩ ⟨10, 10⟩) ∧
    ∃ c s e, IPath.arc ⟨9, 1⟩ 1 0 0 = IPath.arc c 1 s e :=
  ⟨geo1_fillet_eval, fillet_radius_fidelity geo1 tl1 tl2 1 _ _ _ geo1_fillet_eval⟩

/-- C4 counterexample: with the concavity test false (the fillet lies
outside the arc's curvature) and guide-line angle 10°, the side's fillet
angle is 10 + 180 = 190 but the deferred mutation writes 10 — not the
angle plus 180° that the claim asserts. -/
theorem arc_clip_plus180_refuted :
    ctx4.path = IPath.arc ⟨0, 0⟩ 5 0 90 ∧
    geo2.isArcConcaveTowardsPoint (IPath.arc ⟨0, 0⟩ 5 0 90) ⟨7, 0⟩ = false ∧
    geo2.ofLineInDegrees ⟨0, 0⟩ ⟨7, 0⟩ = 10 ∧
    (getFilletResult geo2 ctx4 1 ⟨7, 0⟩).1 = some ⟨190, .ang 10⟩ ∧
    PropVal.ang (10 : ℚ) ≠ PropVal.ang (10 + 180) := by
  refine ⟨rfl, rfl, rfl, ?_, by norm_num⟩
  rw [geo2_gfr_eval]

/-- C4 (amended): on an arc side the deferred mutation overwrites the
matched angle field with the guide-line angle (the angle of the line from
the arc's own center to the fillet center) unconditionally; the
plus-180° adjustment in the case where the fillet lies outside the arc's
curvature applies only to the side's fillet angle used for the returned
arc, not to the mutated field. -/
theorem arc_clip_guide_angle (g : Geo) (ctx : IMatchPointProperty) (r : ℚ)
    (c o : IPoint) (rad s e : ℚ) (fr : IFilletResult) (p2 : IPath)
    (hpath : ctx.path = IPath.arc o rad s e)
    (h : getFilletResult g ctx r c = (some fr, p2)) :
    fr.clipVal = .ang (g.ofLineInDegrees o c) ∧
    fr.filletAngle =
      (if g.isArcConcaveTowardsPoint (IPath.arc o rad s e) c then g.ofLineInDegrees o c
       else g.ofLineInDegrees o c + 180) := by
  unfold getFilletResult at h
  cases htan : tangentOutcome g ctx c with
  | none => rw [htan] at h; simp at h
  | some r0 =>
      rw [htan] at h
      dsimp only at h
      rw [Prod.mk.injEq] at h
      obtain ⟨h1, _⟩ := h
      split_ifs at h1 with hlen
      have hfr : r0 = fr := by
        first
        | exact h1
        | exact Option.some.inj h1
      subst hfr
      unfold tangentOutcome at htan
      rw [hpath] at htan
      dsimp only at htan
      injection htan with hr0
      rw [← hr0]
      exact ⟨rfl, rfl⟩

/-- Witness for C4 (amended): the `geo2` arc-side outcome writes the
guide-line angle 10 while its fillet angle is 190. -/
theorem arc_clip_guide_angle_witness :
    ctx4.path = IPath.arc ⟨0, 0⟩ 5 0 90 ∧
    getFilletResult geo2 ctx4 1 ⟨7, 0⟩ = (some ⟨190, .ang 10⟩, IPath.arc ⟨0, 0⟩ 5 0 90) ∧
    ((⟨190, .ang 10⟩ : IFilletResult).clipVal =
        .ang (geo2.ofLineInDegrees ⟨0, 0⟩ ⟨7, 0⟩) ∧
     (⟨190, .ang 10⟩ : IFilletResult).filletAngle =
        (if geo2.isArcConcaveTowardsPoint (IPath.arc ⟨0, 0⟩ 5 0 90) ⟨7, 0⟩
         then geo2.ofLineInDegrees ⟨0, 0⟩ ⟨7, 0⟩
         else geo2.ofLineInDegrees ⟨0, 0⟩ ⟨7, 0⟩ + 180)) :=
  ⟨rfl, geo2_gfr_eval,
   arc_clip_guide_angle geo2 ctx4 1 ⟨7, 0⟩ ⟨0, 0⟩ 5 0 90 ⟨190, .ang 10⟩
     (IPath.arc ⟨0, 0⟩ 5 0 90) rfl geo2_gfr_eval⟩

/-- C5: endpoint matching tests the four endpoint pairings in the fixed
priority order (pt0,pt0), (pt0,pt1), (pt1,pt0), (pt1,pt1) under the
rounded-equality comparison; the first pairing that matches is the one
used (no later pairing or secondary criterion can override it), and when
none matches the operation fails with both paths unchanged. -/
theorem match_first_policy (g : Geo) (p1 p2 : IPath)
    (pr1 pr2 : IPointProperty × IPointProperty)
    (h1 : getPointProperties g p1 = some pr1)
    (h2 : getPointProperties g p2 = some pr2) :
    getMatchingPointProperties g p1 p2 =
      .ok ((firstMatchSpec g pr1 pr2).map fun ij =>
        (makeMatch p1 pr1 ij.1, makeMatch p2 pr2 ij.2)) ∧
    (firstMatchSpec g pr1 pr2 = none →
      ∀ r : ℚ, fillet g p1 p2 r = .ok (none, p1, p2)) := by
  have hmain : getMatchingPointProperties g p1 p2 =
      .ok ((firstMatchSpec g pr1 pr2).map fun ij =>
        (makeMatch p1 pr1 ij.1, makeMatch p2 pr2 ij.2)) := by
    rcases Bool.eq_false_or_eq_true
        (g.areEqualRounded (propAt pr1 false).point (propAt pr2 false).point) with c00 | c00 <;>
    rcases Bool.eq_false_or_eq_true
        (g.areEqualRounded (propAt pr1 false).point (propAt pr2 true).point) with c01 | c01 <;>
    rcases Bool.eq_false_or_eq_true
        (g.areEqualRounded (propAt pr1 true).point (propAt pr2 false).point) with c10 | c10 <;>
    rcases Bool.eq_false_or_eq_true
        (g.areEqualRounded (propAt pr1 true).point (propAt pr2 true).point) with c11 | c11 <;>
      simp [getMatchingPointProperties, firstMatchSpec, matchIndexOrder, List.find?,
        h1, h2, c00, c01, c10, c11]
  refine ⟨hmain, fun hnone r => ?_⟩
  have h0 : getMatchingPointProperties g p1 p2 = .ok none := by
    rw [hmain, hnone]
    rfl
  unfold fillet
  split_ifs
  · rw [h0]
  · rfl

/-- Witness for C5: the two test lines match at `(pt1, pt0)` (the end of
`tl1` and the origin of `tl2`), the first pairing in the order whose
points are equal. -/
theorem match_first_policy_witness :
    getPointProperties geo1 tl1 =
      some (⟨⟨0, 0⟩, .origin⟩, ⟨⟨10, 0⟩, .endPoint⟩) ∧
    getPointProperties geo1 tl2 =
      some (⟨⟨10, 0⟩, .origin⟩, ⟨⟨10, 10⟩, .endPoint⟩) ∧
    (getMatchingPointProperties geo1 tl1 tl2 =
      .ok ((firstMatchSpec geo1 (⟨⟨0, 0⟩, .origin⟩, ⟨⟨10, 0⟩, .endPoint⟩)
             (⟨⟨10, 0⟩, .origin⟩, ⟨⟨10, 10⟩, .endPoint⟩)).map fun ij =>
        (makeMatch tl1 (⟨⟨0, 0⟩, .origin⟩, ⟨⟨10, 0⟩, .endPoint⟩) ij.1,
         makeMatch tl2 (⟨⟨10, 0⟩, .origin⟩, ⟨⟨10, 10⟩, .endPoint⟩) ij.2)) ∧
     (firstMatchSpec geo1 (⟨⟨0, 0⟩, .origin⟩, ⟨⟨10, 0⟩, .endPoint⟩)
         (⟨⟨10, 0⟩, .origin⟩, ⟨⟨10, 10⟩, .endPoint⟩) = none →
       ∀ r : ℚ, fillet geo1 tl1 tl2 r = .ok (none, tl1, tl2))) :=
  ⟨rfl, rfl, match_first_policy geo1 tl1 tl2 _ _ rfl rfl⟩

/-- C6: on an arc side the guide path keeps the start half of the
shard-split arc when `isStart` (else the end half), tests it for
concavity toward the other side's shard point, and builds a new arc with
the same center and angular extent whose radius is the original radius
minus the fillet radius when concave, plus it otherwise. -/
theorem arc_guide_radius_adjust (g : Geo) (ctx : IMatchPointProperty) (fr : ℚ)
    (near o : IPoint) (rad s e : ℚ) (sp : IPoint)
    (hpath : ctx.path = IPath.arc o rad s e)
    (hsp : ctx.shardPoint = some sp) :
    getGuidePath g ctx fr near =
      (if ctx.isStart then some (g.breakAtPoint (IPath.arc o rad s e) sp).1
       else (g.breakAtPoint (IPath.arc o rad s e) sp).2).map
        fun sh =>
          IPath.arc o
            (if g.isArcConcaveTowardsPoint sh near then rad - fr else rad + fr) s e := by
  unfold getGuidePath cloneAndBreakPath
  rw [hpath, hsp]
  dsimp only
  cases hst : ctx.isStart
  · cases hbk : (g.breakAtPoint (IPath.arc o rad s e) sp).2 <;> simp [hbk]
  · simp

/-- Witness for C6: under `geo1` (concavity always true, break returning
the whole arc) the guide for the arc context is the same arc with radius
5 − 1. -/
theorem arc_guide_radius_adjust_witness :
    ctx4.path = IPath.arc ⟨0, 0⟩ 5 0 90 ∧
    ctx4.shardPoint = some ⟨4, 1⟩ ∧
    getGuidePath geo1 ctx4 1 ⟨2, 2⟩ =
      (if ctx4.isStart then some ((geo1.breakAtPoint (IPath.arc ⟨0, 0⟩ 5 0 90) ⟨4, 1⟩).1)
       else (geo1.breakAtPoint (IPath.arc ⟨0, 0⟩ 5 0 90) ⟨4, 1⟩).2).map
        (fun sh =>
          IPath.arc ⟨0, 0⟩
            (if geo1.isArcConcaveTowardsPoint sh ⟨2, 2⟩ then 5 - 1 else 5 + 1) 0 90) :=
  ⟨rfl, rfl, arc_guide_radius_adjust geo1 ctx4 1 ⟨2, 2⟩ ⟨0, 0⟩ 5 0 90 ⟨4, 1⟩ rfl rfl⟩

/-- C7: when the two guide paths intersect in exactly one point that
point is the fillet center; in more than one point the center is the
intersection point closest by distance to the originally matched common
point; and when they do not intersect the stage fails — and any failing
`fillet` call mutates nothing. -/
theorem center_resolution_policy :
    (∀ (g : Geo) (cp : IPoint) (gp0 gp1 : IPath) (p : IPoint),
        g.intersection gp0 gp1 = some [p] → resolveCenter g cp gp0 gp1 = some p) ∧
    (∀ (g : Geo) (cp : IPoint) (gp0 gp1 : IPath) (pts : List IPoint),
        g.intersection gp0 gp1 = some pts → 1 < pts.length →
          ∃ ce, resolveCenter g cp gp0 gp1 = some ce ∧ ce ∈ pts ∧
            ∀ q ∈ pts, distSq cp ce ≤ distSq cp q) ∧
    (∀ (g : Geo) (cp : IPoint) (gp0 gp1 : IPath),
        g.intersection gp0 gp1 = none → resolveCenter g cp gp0 gp1 = none) ∧
    (∀ (g : Geo) (p1 p2 : IPath) (r : ℚ) (q1 q2 : IPath),
        fillet g p1 p2 r = .ok (none, q1, q2) → q1 = p1 ∧ q2 = p2) := by
  refine ⟨?_, ?_, ?_, fillet_none_unchanged⟩
  · intro g cp gp0 gp1 p h
    unfold resolveCenter
    rw [h]
    simp [List.headI]
  · intro g cp gp0 gp1 pts h hlen
    unfold resolveCenter
    rw [h]
    dsimp only
    have hne : pts ≠ [] := by
      intro h0
      rw [h0] at hlen
      simp at hlen
    rw [if_neg (by omega : ¬pts.length = 1)]
    obtain ⟨hmem, hmin⟩ := closest_spec cp pts hne
    exact ⟨closest cp pts, rfl, hmem, hmin⟩
  · intro g cp gp0 gp1 h
    unfold resolveCenter
    rw [h]

/-- Witness for C7: a singleton guide intersection is taken directly; a
two-point intersection resolves to the point nearer the reference; no
intersection yields no center; and the failing `geoB` call leaves both
inputs unchanged. -/
theorem center_resolution_policy_witness :
    geo1.intersection tl1 tl2 = some [⟨9, 1⟩] ∧
    resolveCenter geo1 ⟨10, 0⟩ tl1 tl2 = some ⟨9, 1⟩ ∧
    (∃ ce, resolveCenter geo1 ⟨0, 0⟩ (IPath.arc ⟨0, 0⟩ 1 0 90) (IPath.arc ⟨5, 5⟩ 1 0 90)
          = some ce ∧
        ce ∈ [(⟨3, 0⟩ : IPoint), ⟨0, 4⟩] ∧
        ∀ q ∈ [(⟨3, 0⟩ : IPoint), ⟨0, 4⟩], distSq ⟨0, 0⟩ ce ≤ distSq ⟨0, 0⟩ q) ∧
    resolveCenter geo1 ⟨0, 0⟩ tl1 (IPath.circle ⟨0, 0⟩ 1) = none ∧
    (tl1 = tl1 ∧ tl2 = tl2) :=
  ⟨rfl, center_resolution_policy.1 geo1 ⟨10, 0⟩ tl1 tl2 ⟨9, 1⟩ rfl,
   center_resolution_policy.2.1 geo1 ⟨0, 0⟩ (IPath.arc ⟨0, 0⟩ 1 0 90)
     (IPath.arc ⟨5, 5⟩ 1 0 90) [⟨3, 0⟩, ⟨0, 4⟩] rfl (by norm_num),
   center_resolution_policy.2.2.1 geo1 ⟨0, 0⟩ tl1 (IPath.circle ⟨0, 0⟩ 1) rfl,
   center_resolution_policy.2.2.2 geoB tl1 tl2 1 tl1 tl2 geoB_fillet_eval⟩

/-- C8: each side's outcome is validated by tentatively applying the
deferred mutation and measuring the path length: a zero length rejects
the outcome (`getFilletResult` returns no result), a kept outcome has
nonzero tentative length, and a successful `fillet` leaves neither final
path of zero length. -/
theorem degenerate_trim_rejected :
    (∀ (g : Geo) (ctx : IMatchPointProperty) (r : ℚ) (c : IPoint) (fr : IFilletResult),
        tangentOutcome g ctx c = some fr →
        g.pathLength (setPathProp ctx.path ctx.propertyName fr.clipVal) = 0 →
        (getFilletResult g ctx r c).1 = none) ∧
    (∀ (g : Geo) (ctx : IMatchPointProperty) (r : ℚ) (c : IPoint)
        (fr : IFilletResult) (p2 : IPath),
        getFilletResult g ctx r c = (some fr, p2) →
        g.pathLength (setPathProp ctx.path ctx.propertyName fr.clipVal) ≠ 0) ∧
    (∀ (g : Geo) (p1 p2 : IPath) (r : ℚ) (a q1 q2 : IPath),
        fillet g p1 p2 r = .ok (some a, q1, q2) →
        g.pathLength q1 ≠ 0 ∧ g.pathLength q2 ≠ 0) := by
  refine ⟨?_, ?_, ?_⟩
  · intro g ctx r c fr htan hlen
    exact getFilletResult_zero_len g ctx r c fr htan hlen
  · intro g ctx r c fr p2 h
    exact getFilletResult_some_len g ctx r c fr p2 h
  · intro g p1 p2 r a q1 q2 h
    obtain ⟨m1, m2, hm, v1, v2, hq1, hq2, hl1, hl2, hex, hspan⟩ :=
      fillet_success_spec g p1 p2 r a q1 q2 h
    exact ⟨hl1, hl2⟩

/-- Witness for C8: under `geoB` the tentative clip of `tl1` measures
zero and the side is rejected; under `geo1` the kept outcome has nonzero
tentative length and the successful run's final paths have nonzero
length. -/
theorem degenerate_trim_rejected_witness :
    tangentOutcome geoB dctx ⟨9, 1⟩ = some ⟨0, .pt ⟨9, 0⟩⟩ ∧
    geoB.pathLength (setPathProp dctx.path dctx.propertyName (PropVal.pt ⟨9, 0⟩)) = 0 ∧
    (getFilletResult geoB dctx 1 ⟨9, 1⟩).1 = none ∧
    geo1.pathLength
      (setPathProp dctx.path dctx.propertyName
        ((⟨0, .pt ⟨9, 0⟩⟩ : IFilletResult).clipVal)) ≠ 0 ∧
    (geo1.pathLength (IPath.line ⟨0, 0⟩ ⟨9, 0⟩) ≠ 0 ∧
     geo1.pathLength (IPath.line ⟨9, 0⟩ ⟨10, 10⟩) ≠ 0) :=
  ⟨geoB_tangent_eval, rfl,
   degenerate_trim_rejected.1 geoB dctx 1 ⟨9, 1⟩ ⟨0, .pt ⟨9, 0⟩⟩ geoB_tangent_eval rfl,
   degenerate_trim_rejected.2.1 geo1 dctx 1 ⟨9, 1⟩ ⟨0, .pt ⟨9, 0⟩⟩ tl1 geo1_gfr_eval,
   degenerate_trim_rejected.2.2 geo1 tl1 tl2 1 _ _ _ geo1_fillet_eval⟩

/-- C9: every final path state `fillet` ever produces is the input path
with (at most) one endpoint property overwritten; on success the
overwritten property of each path is exactly its matched endpoint
property; and a single endpoint write preserves the path variant, the
non-endpoint fields, and every other endpoint property. -/
theorem endpoint_only_writes :
    (∀ (g : Geo) (p1 p2 : IPath) (r : ℚ) (res : Option IPath) (q1 q2 : IPath),
        fillet g p1 p2 r = .ok (res, q1, q2) →
          ∃ (n1 : PropName) (v1 : PropVal) (n2 : PropName) (v2 : PropVal),
            q1 = setPathProp p1 n1 v1 ∧ q2 = setPathProp p2 n2 v2) ∧
    (∀ (g : Geo) (p1 p2 : IPath) (r : ℚ) (a q1 q2 : IPath),
        fillet g p1 p2 r = .ok (some a, q1, q2) →
          ∃ m1 m2 : IMatchPointProperty,
            getMatchingPointProperties g p1 p2 = .ok (some (m1, m2)) ∧
            ∃ v1 v2 : PropVal,
              q1 = setPathProp p1 m1.propertyName v1 ∧
              q2 = setPathProp p2 m2.propertyName v2) ∧
    (∀ (p : IPath) (n : PropName) (v : PropVal),
        onlyPropWritten p (setPathProp p n v) n) := by
  refine ⟨?_, ?_, ?_⟩
  · intro g p1 p2 r res q1 q2 h
    cases res with
    | none =>
        obtain ⟨hq1, hq2⟩ := fillet_none_unchanged g p1 p2 r q1 q2 h
        exact ⟨.origin, getPathProp p1 .origin, .origin, getPathProp p2 .origin,
          by rw [hq1, setPathProp_getPathProp], by rw [hq2, setPathProp_getPathProp]⟩
    | some a =>
        obtain ⟨m1, m2, hm, v1, v2, hq1, hq2, hl1, hl2, hex, hspan⟩ :=
          fillet_success_spec g p1 p2 r a q1 q2 h
        exact ⟨m1.propertyName, v1, m2.propertyName, v2, hq1, hq2⟩
  · intro g p1 p2 r a q1 q2 h
    obtain ⟨m1, m2, hm, v1, v2, hq1, hq2, hl1, hl2, hex, hspan⟩ :=
      fillet_success_spec g p1 p2 r a q1 q2 h
    exact ⟨m1, m2, hm, v1, v2, hq1, hq2⟩
  · intro p n v
    constructor
    · cases p <;> cases n <;> cases v <;> simp [sameShape, setPathProp]
    · intro m hm
      cases p <;> cases n <;> cases v <;> cases m <;>
        simp_all [setPathProp, getPathProp]

/-- Witness for C9: the successful `geo1` run rewrites exactly the `end`
endpoint of `tl1` and the `origin` endpoint of `tl2`; a single endpoint
write touches nothing else. -/
theorem endpoint_only_writes_witness :
    fillet geo1 tl1 tl2 1 =
      .ok (some (.arc ⟨9, 1⟩ 1 0 0), .line ⟨0, 0⟩ ⟨9, 0⟩, .line ⟨9, 0⟩ ⟨10, 10⟩) ∧
    (∃ (n1 : PropName) (v1 : PropVal) (n2 : PropName) (v2 : PropVal),
        IPath.line ⟨0, 0⟩ ⟨9, 0⟩ = setPathProp tl1 n1 v1 ∧
        IPath.line ⟨9, 0⟩ ⟨10, 10⟩ = setPathProp tl2 n2 v2) ∧
    (∃ m1 m2 : IMatchPointProperty,
        getMatchingPointProperties geo1 tl1 tl2 = .ok (some (m1, m2)) ∧
        ∃ v1 v2 : PropVal,
          IPath.line ⟨0, 0⟩ ⟨9, 0⟩ = setPathProp tl1 m1.propertyName v1 ∧
          IPath.line ⟨9, 0⟩ ⟨10, 10⟩ = setPathProp tl2 m2.propertyName v2) ∧
    onlyPropWritten tl1 (setPathProp tl1 .endPoint (.pt ⟨9, 0⟩)) .endPoint :=
  ⟨geo1_fillet_eval,
   endpoint_only_writes.1 geo1 tl1 tl2 1 _ _ _ geo1_fillet_eval,
   endpoint_only_writes.2.1 geo1 tl1 tl2 1 _ _ _ geo1_fillet_eval,
   endpoint_only_writes.2.2 tl1 .endPoint (.pt ⟨9, 0⟩)⟩

/-- C10: a path whose type is neither line nor arc (for example a circle)
has no point properties, and endpoint matching dereferences that missing
result, so `fillet` with a positive radius raises a runtime type error
(`Except.error`) instead of returning the uniform `null` failure. -/
theorem non_line_arc_type_error :
    (∀ (g : Geo) (c : IPoint) (rr : ℚ), getPointProperties g (IPath.circle c rr) = none) ∧
    (∀ (g : Geo) (c : IPoint) (rr : ℚ) (p2 : IPath) (r : ℚ),
        0 < r → fillet g (IPath.circle c rr) p2 r = .error ()) ∧
    (∀ (g : Geo) (p1 : IPath) (c : IPoint) (rr : ℚ) (r : ℚ),
        0 < r → fillet g p1 (IPath.circle c rr) r = .error ()) := by
  refine ⟨fun g c rr => rfl, ?_, ?_⟩
  · intro g c rr p2 r hr
    have hmp : getMatchingPointProperties g (IPath.circle c rr) p2 = .error () := by
      unfold getMatchingPointProperties
      cases getPointProperties g p2 <;> rfl
    unfold fillet
    rw [if_pos hr, hmp]
  · intro g p1 c rr r hr
    have hmp : getMatchingPointProperties g p1 (IPath.circle c rr) = .error () := by
      unfold getMatchingPointProperties
      cases getPointProperties g p1 <;> rfl
    unfold fillet
    rw [if_pos hr, hmp]

/-- Witness for C10: filleting a circle with a line (in either argument
position) raises the type error under `geo1`. -/
theorem non_line_arc_type_error_witness :
    getPointProperties geo1 (IPath.circle ⟨0, 0⟩ 1) = none ∧
    (0 : ℚ) < 1 ∧
    fillet geo1 (IPath.circle ⟨0, 0⟩ 1) tl2 1 = .error () ∧
    fillet geo1 tl1 (IPath.circle ⟨0, 0⟩ 1) 1 = .error () :=
  ⟨non_line_arc_type_error.1 geo1 ⟨0, 0⟩ 1, by norm_num,
   non_line_arc_type_error.2.1 geo1 ⟨0, 0⟩ 1 tl2 1 (by norm_num),
   non_line_arc_type_error.2.2 geo1 tl1 ⟨0, 0⟩ 1 1 (by norm_num)⟩

end MakerJs
